import Mathlib

/-!
Verification of the UAS weather Go/No-Go application (`src/app.py`).

The development shallow-embeds the core of the repository: the three
source adapters (`get_metar`, `get_taf`, NWS hourly forecast with
`parse_forecast_wind`), the three-tier cascade inside the `index`
request handler, the daylight block and the rule evaluation, and the
`America/Chicago` → UTC conversion of the requested flight time.

Conventions of the embedding:
* Python floats are modelled as exact rationals (`ℚ`); machine time
  instants are seconds since the Unix epoch (`ℤ`).
* Network / library collaborators (HTTP fetches, XML parsing up to the
  element structure, `isoparse`, the sunrise-sunset service) are an
  explicit `Env` record of functions; `none` / `[]` model a failed call,
  matching the `try/except` boundaries of the source.
* XML elements are records of their used fields; an absent element or
  an absent attribute is `Option.none`, an empty text node is `some ""`
  (Python treats both as falsy, which the embedding checks explicitly).
* Python string operations are modelled by structural recursion over
  the character list `String.data`.
-/

namespace UasApp

/-! ### Python builtin models: `float`, `int`, `round(x, 1)`, `str.lower`, substring test -/

/-- Numeric value of a list of decimal digit characters. -/
def digitsVal (cs : List Char) : Nat :=
  cs.foldl (fun n c => 10 * n + (c.toNat - 48)) 0

/-- Model of Python `str.strip()`: drop whitespace from both ends. -/
def pyStrip (cs : List Char) : List Char :=
  ((cs.dropWhile Char.isWhitespace).reverse.dropWhile Char.isWhitespace).reverse

/-- The syntactic pieces of a decimal literal accepted by Python
`float`: sign, integer-part value, fraction-part value and the number of
fraction digits. -/
structure FloatParts where
  neg : Bool
  ip : Nat
  fp : Nat
  fplen : Nat
deriving DecidableEq, Repr

/-- Digit scanner of the `float(s)` model: digits, optionally a dot and
fraction digits, at least one digit overall; anything else is the
`ValueError` branch. -/
def floatDigits (cs : List Char) : Option (Nat × Nat × Nat) :=
  let ip := cs.takeWhile Char.isDigit
  match cs.drop ip.length with
  | [] => if ip ≠ [] then some (digitsVal ip, 0, 0) else none
  | '.' :: fp =>
    if fp.all Char.isDigit ∧ (ip ≠ [] ∨ fp ≠ []) then
      some (digitsVal ip, digitsVal fp, fp.length)
    else none
  | _ => none

/-- Model of Python `float(s)` on a character list: strip, optional sign,
then `floatDigits`. -/
def floatPartsOf (cs : List Char) : Option FloatParts :=
  match pyStrip cs with
  | '+' :: r => (floatDigits r).map (fun p => ⟨false, p.1, p.2.1, p.2.2⟩)
  | '-' :: r => (floatDigits r).map (fun p => ⟨true, p.1, p.2.1, p.2.2⟩)
  | r => (floatDigits r).map (fun p => ⟨false, p.1, p.2.1, p.2.2⟩)

/-- The rational value of a parsed decimal literal. -/
def ratOfParts (p : FloatParts) : ℚ :=
  (if p.neg then -1 else 1) * ((p.ip : ℚ) + (p.fp : ℚ) / (10 : ℚ) ^ p.fplen)

/-- Model of Python `float(s)` on a character list. -/
def parseFloatList (cs : List Char) : Option ℚ :=
  (floatPartsOf cs).map ratOfParts

/-- Model of Python `float(s)`. -/
def parseFloat (s : String) : Option ℚ :=
  parseFloatList s.data

/-- Model of Python `int(s)`: strip, optional sign, then decimal digits
only. -/
def parseInt (s : String) : Option ℤ :=
  let core : List Char → Option ℤ := fun cs =>
    if cs ≠ [] ∧ cs.all Char.isDigit then some ((digitsVal cs : ℤ)) else none
  match pyStrip s.data with
  | '+' :: r => core r
  | '-' :: r => (core r).map (fun z => -z)
  | r => core r

/-- Floor of a rational (`⌊q⌋`), written structurally so that it
evaluates: the denominator is positive, so Euclidean division of the
numerator floors. -/
def ratFloor (q : ℚ) : ℤ := q.num / (q.den : ℤ)

/-- Model of Python `round(x, 1)` (the arguments in the source are never
half-way ties, so the tie-breaking convention is immaterial). -/
def roundTo1 (q : ℚ) : ℚ := ((ratFloor (q * 10 + 1 / 2) : ℤ) : ℚ) / 10

/-- Model of Python `str.lower()` on the ASCII data that flows here. -/
def lowerData (s : String) : List Char := s.data.map Char.toLower

/-- Model of the Python substring test `needle in hay` on `List Char`. -/
def containsSub (hay needle : List Char) : Bool :=
  match hay with
  | [] => needle.isEmpty
  | _ :: t => needle.isPrefixOf hay || containsSub t needle

/-- Python truthiness of an optional string (`None` and `""` are falsy). -/
def pyTruthy (o : Option String) : Bool :=
  match o with
  | none => false
  | some s => s ≠ ""

/-! ### Fixed thresholds (module constants of `src/app.py`) -/

def MAX_WIND_MPH : ℚ := 15.7
def MIN_VISIBILITY_SM : ℚ := 3.0
def MIN_CLOUD_BASE_FT : ℤ := 500
def BAD_CONDITIONS : List String := ["rain", "snow", "fog", "thunderstorm", "mist"]

/-- `any(term in condition.lower() for term in BAD_CONDITIONS)`. -/
def hasBadCondition (condition : String) : Bool :=
  BAD_CONDITIONS.any (fun term => containsSub (lowerData condition) term.data)

/-! ### Upstream XML shapes and the current-observation adapter `get_metar` -/

/-- One `<sky_condition>` element: the `sky_cover` and `cloud_base_ft_agl`
attributes (`none` models an absent attribute). -/
structure SkyCondition where
  sky_cover : String
  cloud_base_ft_agl : Option String

/-- The fields of a `<METAR>` element read by `get_metar`.  Each element's
text is `none` when the element is missing, `some ""` when it is empty. -/
structure MetarXml where
  wind_speed_kt : Option String
  visibility_statute_mi : Option String
  sky_condition : List SkyCondition
  flight_category : Option String

/-- The normalized per-source observation produced by the adapters. -/
structure Obs where
  wind_mph : ℚ
  visibility : ℚ
  cloud_base : ℤ
  condition : String
deriving DecidableEq, Repr

/-- Wind extraction of `get_metar`/`get_taf`: `wind_speed_kt` text, knots
converted to mph by `round(kt * 1.15078, 1)`; absent, empty or unparseable
text leaves the 0.0 default. -/
def extractWind (windEl : Option String) : ℚ :=
  match windEl with
  | some t =>
    if t ≠ "" then
      match parseFloat t with
      | some kt => roundTo1 (kt * 1.15078)
      | none => 0.0
    else 0.0
  | none => 0.0

/-- Visibility extraction of `get_metar`/`get_taf`: drop every `'+'`
(Python `replace('+', '')`), strip, parse as a decimal; absent, empty or
unparseable text leaves the 10.0 default. -/
def extractVis (visEl : Option String) : ℚ :=
  match visEl with
  | some t =>
    if t ≠ "" then
      match parseFloatList (pyStrip (t.data.filter (fun c => c ≠ '+'))) with
      | some v => v
      | none => 10.0
    else 10.0
  | none => 10.0

/-- Cloud-base extraction: the first `BKN`/`OVC` layer with a truthy
`cloud_base_ft_agl` attribute sets the base and stops the scan; an
unparseable attribute aborts the loop to the 10000 default. -/
def extractCloud : List SkyCondition → ℤ
  | [] => 10000
  | c :: rest =>
    if c.sky_cover = "BKN" ∨ c.sky_cover = "OVC" then
      match c.cloud_base_ft_agl with
      | some s =>
        if s ≠ "" then
          match parseInt s with
          | some n => n
          | none => 10000
        else extractCloud rest
      | none => extractCloud rest
    else extractCloud rest

/-- Flight-category extraction of `get_metar`: text of `flight_category`
when present and non-empty, else the `"UNKN"` default. -/
def extractCategory (catEl : Option String) : String :=
  match catEl with
  | some t => if t ≠ "" then t else "UNKN"
  | none => "UNKN"

/-- `get_metar` (src/app.py:105-199) after its network/XML boundary: `none`
in models an HTTP error, an XML parse error or a missing `<METAR>` element;
the final validity check returns `None` unless the flight category is a
real value. -/
def get_metar (resp : Option MetarXml) : Option Obs :=
  match resp with
  | none => none
  | some m =>
    let condition := extractCategory m.flight_category
    if condition ≠ "UNKN" then
      some { wind_mph := extractWind m.wind_speed_kt
             visibility := extractVis m.visibility_statute_mi
             cloud_base := extractCloud m.sky_condition
             condition := condition }
    else none

/-! ### Short-range forecast adapter `get_taf` -/

/-- The fields of the first `<forecast>` period of a `<TAF>` element. -/
structure TafForecast where
  wind_speed_kt : Option String
  visibility_statute_mi : Option String
  sky_condition : List SkyCondition
  wx_string : Option String

/-- A `<TAF>` element; `forecast = none` models a TAF with no forecast
period (`get_taf` then returns `None`). -/
structure TafXml where
  forecast : Option TafForecast

/-- Weather-string extraction of `get_taf`: `wx_string` text when present
and non-empty, else the `"VFR"` default. -/
def extractWx (wxEl : Option String) : String :=
  match wxEl with
  | some t => if t ≠ "" then t else "VFR"
  | none => "VFR"

/-- `get_taf` (src/app.py:202-300) after its network/XML boundary. Unlike
`get_metar` it succeeds whenever a forecast period exists, whatever the
field contents. -/
def get_taf (resp : Option TafXml) : Option Obs :=
  match resp with
  | none => none
  | some t =>
    match t.forecast with
    | none => none
    | some f =>
      some { wind_mph := extractWind f.wind_speed_kt
             visibility := extractVis f.visibility_statute_mi
             cloud_base := extractCloud f.sky_condition
             condition := extractWx f.wx_string }

/-! ### Gridded hourly forecast tier -/

/-- One NWS hourly period. `startTime` is the instant `isoparse` (a library
collaborator) yields from the period's ISO string, as epoch seconds. -/
structure Period where
  startTime : ℤ
  windSpeed : String
  shortForecast : String
deriving DecidableEq, Repr

/-- One attempt of the regex `(\d+)\s*(?:mph|mi/h|knots|kt)` anchored at the
head of the (lowercased) character list: a non-empty digit run, optional
whitespace, then one of the unit words. -/
def windMatchAt (cs : List Char) : Option Nat :=
  let ds := cs.takeWhile Char.isDigit
  if ds ≠ [] ∧
      (["mph", "mi/h", "knots", "kt"].any
        (fun u => u.data.isPrefixOf ((cs.drop ds.length).dropWhile Char.isWhitespace)))
    then some (digitsVal ds) else none

/-- Leftmost match of the wind regex (model of `re.search`). -/
def findWindMatch : List Char → Option Nat
  | [] => none
  | c :: t =>
    match windMatchAt (c :: t) with
    | some v => some v
    | none => findWindMatch t

/-- `parse_forecast_wind` (src/app.py:313-322): first integer followed by a
unit word, converted from knots when the whole string mentions
`knot`/`kt`; no match yields 0.0. -/
def parse_forecast_wind (windStr : String) : ℚ :=
  let low := lowerData windStr
  match findWindMatch low with
  | some n =>
    if containsSub low "knot".data ∨ containsSub low "kt".data then
      roundTo1 ((n : ℚ) * 1.15078)
    else (n : ℚ)
  | none => 0.0

/-- `min(periods, key=lambda p: abs(isoparse(p["startTime"]) - selected_time))`:
Python's `min` keeps the first element among minimal keys. -/
def closestPeriod (sel : ℤ) (p : Period) (ps : List Period) : Period :=
  ps.foldl (fun best q => if |q.startTime - sel| < |best.startTime - sel| then q else best) p

/-! ### The cascade controller (src/app.py:416-484) -/

/-- The source tier finally used; `unavailable` is the `NONE` sentinel. -/
inductive Source
  | metar
  | taf
  | forecast
  | unavailable
deriving DecidableEq, Repr

/-- A tier whose adapter was actually invoked. -/
inductive Tier
  | t1
  | t2
  | t3
deriving DecidableEq, Repr

/-- The `get_nws_grid` result fields the cascade reads. -/
structure NwsData where
  forecast_hourly : Option String
  office : String

/-- The external collaborators of one request, at the `try/except`
boundaries of the source: a `none`/`[]` value is a failed or empty
network call. -/
structure Env where
  now : ℤ
  metarFetch : String → Option MetarXml
  tafFetch : String → Option TafXml
  nwsGrid : ℚ → ℚ → Option NwsData
  forecastFetch : String → List Period
  sunLookup : ℚ → ℚ → ℤ × ℕ × ℕ → Option (ℤ × ℤ)

/-- The mutable locals of the cascade block, plus the trace of attempted
tiers (a tier is recorded when its adapter is called). -/
structure CascadeOut where
  source : Source
  wind_mph : ℚ
  visibility : ℚ
  cloud_base : ℤ
  condition : String
  attempts : List Tier

/-- Initial defaults of the cascade block (src/app.py:416-421). -/
def cascadeInit : CascadeOut :=
  { source := .unavailable, wind_mph := 0.0, visibility := 0.0
    cloud_base := 10000, condition := "Unknown", attempts := [] }

/-- Tier 1: METAR, only within the 2-hour window and with a truthy station. -/
def cascadeStep1 (metar_station : Option String) (delta : ℤ) (env : Env) : CascadeOut :=
  let s0 := cascadeInit
  if pyTruthy metar_station ∧ delta ≤ 2 * 3600 then
    match get_metar (env.metarFetch (metar_station.getD "")) with
    | some m =>
      { source := .metar, wind_mph := m.wind_mph, visibility := m.visibility
        cloud_base := m.cloud_base, condition := m.condition, attempts := [.t1] }
    | none => { s0 with attempts := [.t1] }
  else s0

/-- Tier 2: TAF, only if still unavailable, within the 30-hour window, with
a truthy station (`taf_station = metar_station` in the source). -/
def cascadeStep2 (metar_station : Option String) (delta : ℤ) (env : Env) : CascadeOut :=
  let s1 := cascadeStep1 metar_station delta env
  if s1.source = .unavailable ∧ pyTruthy metar_station ∧ delta ≤ 30 * 3600 then
    match get_taf (env.tafFetch (metar_station.getD "")) with
    | some t =>
      { source := .taf, wind_mph := t.wind_mph, visibility := t.visibility
        cloud_base := t.cloud_base, condition := t.condition
        attempts := s1.attempts ++ [.t2] }
    | none => { s1 with attempts := s1.attempts ++ [.t2] }
  else s1

/-- The guard `nws_data and nws_data.get('forecast_hourly')` of tier 3. -/
def nwsAttemptable (nws_data : Option NwsData) : Bool :=
  match nws_data with
  | some nd => pyTruthy nd.forecast_hourly
  | none => false

/-- The hourly-forecast URL passed to `get_forecast` by tier 3. -/
def nwsUrl (nws_data : Option NwsData) : String :=
  match nws_data with
  | some nd => nd.forecast_hourly.getD ""
  | none => ""

/-- Tier 3: NWS hourly forecast, only if still unavailable and a truthy
hourly-forecast URL is known; visibility/ceiling are assumed best-case. -/
def cascadeStep3 (metar_station : Option String) (nws_data : Option NwsData)
    (delta sel : ℤ) (env : Env) : CascadeOut :=
  let s2 := cascadeStep2 metar_station delta env
  if s2.source = .unavailable ∧ nwsAttemptable nws_data then
    match env.forecastFetch (nwsUrl nws_data) with
    | [] => { s2 with attempts := s2.attempts ++ [.t3] }
    | p :: ps =>
      let closest := closestPeriod sel p ps
      { source := .forecast
        wind_mph := parse_forecast_wind closest.windSpeed
        visibility := 10.0, cloud_base := 10000
        condition := closest.shortForecast
        attempts := s2.attempts ++ [.t3] }
  else s2

/-- The whole cascade block of `index`. -/
def cascade (metar_station : Option String) (nws_data : Option NwsData)
    (delta sel : ℤ) (env : Env) : CascadeOut :=
  cascadeStep3 metar_station nws_data delta sel env

/-! ### Daylight block and rule evaluation (src/app.py:486-531) -/

/-- One appended failure-reason string, abstracted to its constructor and
the values interpolated into it. -/
inductive Reason
  | beforeSunrise (minutes : ℤ)
  | afterSunset (minutes : ℤ)
  | windHigh (wind : ℚ)
  | visLow (vis : ℚ)
  | cloudLow (base : ℤ)
  | adverseCond (condition : String)
deriving DecidableEq, Repr

/-- The daylight block: reasons appended and the `flight_time_remaining`
value (hours, minutes — the source reads `timedelta.seconds`, hence the
`% 86400`).  `sun = none` models `get_sunrise_sunset` returning
`(None, None)`. -/
def daylightBlock (sun : Option (ℤ × ℤ)) (sel : ℤ) : List Reason × Option (ℤ × ℤ) :=
  match sun with
  | none => ([], none)
  | some (sunrise, sunset) =>
    if sel < sunrise then ([.beforeSunrise ((sunrise - sel) / 60)], none)
    else if sunset < sel then ([.afterSunset ((sel - sunset) / 60)], none)
    else
      let r := (sunset - sel) % 86400
      ([], some (r / 3600, r % 3600 / 60))

/-- The four weather-criterion appends, in source order. -/
def weatherReasons (wind vis : ℚ) (cloud : ℤ) (condition : String) : List Reason :=
  (if MAX_WIND_MPH < wind then [.windHigh wind] else []) ++
  (if vis < MIN_VISIBILITY_SM then [.visLow vis] else []) ++
  (if cloud < MIN_CLOUD_BASE_FT then [.cloudLow cloud] else []) ++
  (if hasBadCondition condition then [.adverseCond condition] else [])

inductive Decision
  | go
  | noGo
deriving DecidableEq, Repr

/-- The `result` dict fields of `index` that the verification reads. -/
structure Result where
  source : Source
  wind_mph : ℚ
  visibility : ℚ
  cloud_base : ℤ
  condition : String
  wind_pass : Bool
  visibility_pass : Bool
  cloud_pass : Bool
  condition_pass : Bool
  go_nogo : Decision
  failed_reasons : List Reason
  sunrise : Option ℤ
  sunset : Option ℤ
  flight_time_remaining : Option (ℤ × ℤ)
  attempts : List Tier

/-- Rule evaluation and result assembly: daylight reasons first, then the
four weather criteria; `go_nogo = Go` iff no reason was appended; the
`sunrise`/`sunset` fields are `none` exactly when the service failed
(the source renders them as `"N/A"`). -/
def evaluate (c : CascadeOut) (sun : Option (ℤ × ℤ)) (sel : ℤ) : Result :=
  let day := daylightBlock sun sel
  let reasons := day.1 ++ weatherReasons c.wind_mph c.visibility c.cloud_base c.condition
  { source := c.source
    wind_mph := c.wind_mph
    visibility := c.visibility
    cloud_base := c.cloud_base
    condition := c.condition
    wind_pass := decide (c.wind_mph ≤ MAX_WIND_MPH)
    visibility_pass := decide (MIN_VISIBILITY_SM ≤ c.visibility)
    cloud_pass := decide (MIN_CLOUD_BASE_FT ≤ c.cloud_base)
    condition_pass := ! hasBadCondition c.condition
    go_nogo := if reasons = [] then .go else .noGo
    failed_reasons := reasons
    sunrise := sun.map Prod.fst
    sunset := sun.map Prod.snd
    flight_time_remaining := day.2
    attempts := c.attempts }

/-! ### Flight-time parsing: `America/Chicago` localize then UTC
(src/app.py:388-392) -/

/-- The naive wall-clock date/time of the form, after
`strptime("%Y-%m-%d %H:%M")` (string parsing is a library boundary). -/
structure Naive where
  year : ℤ
  month : ℕ
  day : ℕ
  hour : ℕ
  minute : ℕ

/-- Days from 1970-01-01 of a proleptic-Gregorian civil date (`/` on `ℤ`
is floor division here, so no negative-year adjustment is needed). -/
def daysFromCivil (y : ℤ) (m d : ℕ) : ℤ :=
  let y1 : ℤ := if m ≤ 2 then y - 1 else y
  let era : ℤ := y1 / 400
  let yoe : ℤ := y1 - era * 400
  let mp : ℤ := if 2 < m then (m : ℤ) - 3 else (m : ℤ) + 9
  let doy : ℤ := (153 * mp + 2) / 5 + (d : ℤ) - 1
  let doe : ℤ := yoe * 365 + yoe / 4 - yoe / 100 + doy
  era * 146097 + doe - 719468

/-- Day of week of an epoch-day count, `0` = Sunday. -/
def dayOfWeek (days : ℤ) : ℤ := (days + 4) % 7

/-- Day of month of the first Sunday of a month. -/
def firstSundayDay (y : ℤ) (m : ℕ) : ℕ :=
  (1 + ((7 - dayOfWeek (daysFromCivil y m 1)) % 7)).toNat

/-- Naive wall-clock seconds since the epoch. -/
def naiveSeconds (n : Naive) : ℤ :=
  daysFromCivil n.year n.month n.day * 86400 + (n.hour : ℤ) * 3600 + (n.minute : ℤ) * 60

/-- Whether `America/Chicago` daylight-saving time is in force at the given
naive wall-clock time under the post-2007 US rule, resolving the skipped
hour and the repeated hour the way `pytz.localize` does with its default
`is_dst=False`: CDT from 03:00 on the second Sunday of March to 01:00 on
the first Sunday of November. -/
def isCDT (n : Naive) : Bool :=
  let t := naiveSeconds n
  let dstStart := daysFromCivil n.year 3 (firstSundayDay n.year 3 + 7) * 86400 + 3 * 3600
  let dstEnd := daysFromCivil n.year 11 (firstSundayDay n.year 11) * 86400 + 1 * 3600
  decide (dstStart ≤ t ∧ t < dstEnd)

/-- `central.localize(naive_time).astimezone(pytz.utc)`: the UTC instant of
the form's wall-clock time interpreted in `America/Chicago` (UTC−6
standard, UTC−5 daylight). -/
def chicagoToUtc (n : Naive) : ℤ :=
  naiveSeconds n + (if isCDT n then 5 else 6) * 3600

/-! ### The request handler `index` (POST path, after coordinate parsing) -/

/-- The `index` handler from the datetime parse to the assembled result:
inputs are the resolved coordinates, the METAR station (preset map entry or
`find_metar_stations` result), the parsed naive flight time and the
environment. -/
def index (env : Env) (lat lon : ℚ) (metar_station : Option String) (n : Naive) : Result :=
  let sel := chicagoToUtc n
  let delta := sel - env.now
  let nws_data := env.nwsGrid lat lon
  let c := cascade metar_station nws_data delta sel env
  let sun := env.sunLookup lat lon (n.year, n.month, n.day)
  evaluate c sun sel

/-! ### Station locator and metric conversion, modelled from the spec -/

/-- Modelled from the spec: a row of a static station reference table
(identifier plus coordinates); the nearest-neighbor scan itself is not in
`src/` (station search is delegated to a remote service in
`find_metar_stations`). -/
structure Station where
  ident : String
  lat : ℝ
  lon : ℝ

/-- Modelled from the spec: the `atan2(y, x)` function of the haversine
formula. -/
noncomputable def atan2 (y x : ℝ) : ℝ :=
  if 0 < x then Real.arctan (y / x)
  else if x < 0 then
    (if 0 ≤ y then Real.arctan (y / x) + Real.pi else Real.arctan (y / x) - Real.pi)
  else if 0 < y then Real.pi / 2
  else if y < 0 then -(Real.pi / 2)
  else 0

/-- Modelled from the spec: great-circle distance
`a = sin²(Δlat/2) + cos(lat1)·cos(lat2)·sin²(Δlon/2)`,
`distance = 2R·atan2(√a, √(1-a))` with `R = 6371` km, coordinates in
degrees. -/
noncomputable def haversineKm (lat1 lon1 lat2 lon2 : ℝ) : ℝ :=
  let p1 := lat1 * Real.pi / 180
  let p2 := lat2 * Real.pi / 180
  let dlat := (lat2 - lat1) * Real.pi / 180
  let dlon := (lon2 - lon1) * Real.pi / 180
  let a := Real.sin (dlat / 2) ^ 2 + Real.cos p1 * Real.cos p2 * Real.sin (dlon / 2) ^ 2
  2 * 6371 * atan2 (Real.sqrt a) (Real.sqrt (1 - a))

/-- Modelled from the spec: brute-force nearest-neighbor scan over a
reference table under a distance key; an empty table yields "not found"
(`none`), ties keep the earliest row. -/
def nearestBy {β : Type} {α : Type} [LinearOrder α] (d : β → α) : List β → Option β
  | [] => none
  | x :: xs => some (xs.foldl (fun best s => if d s < d best then s else best) x)

/-- Modelled from the spec: meters→feet conversion of a cloud-base height
(`ft = m / 0.3048`); no such conversion appears in `src/`. -/
def metersToFeet (m : ℚ) : ℚ := m / 0.3048

/-! ### Reason classifiers -/

/-- Whether a reason was appended by the daylight block. -/
def Reason.isDaylight : Reason → Bool
  | .beforeSunrise _ => true
  | .afterSunset _ => true
  | _ => false

/-- Whether a reason is the wind-criterion reason. -/
def Reason.isWind : Reason → Bool
  | .windHigh _ => true
  | _ => false

/-- Whether a reason is the visibility-criterion reason. -/
def Reason.isVis : Reason → Bool
  | .visLow _ => true
  | _ => false

/-- Whether a reason is the ceiling-criterion reason. -/
def Reason.isCloud : Reason → Bool
  | .cloudLow _ => true
  | _ => false

/-- Whether a reason is the hazardous-condition reason. -/
def Reason.isAdverse : Reason → Bool
  | .adverseCond _ => true
  | _ => false

/-! ### Cascade characterization lemmas -/

lemma cascadeStep1_attempts (st : Option String) (delta : ℤ) (env : Env) :
    (cascadeStep1 st delta env).attempts =
      if pyTruthy st = true ∧ delta ≤ 2 * 3600 then [Tier.t1] else [] := by
  unfold cascadeStep1
  by_cases h : pyTruthy st = true ∧ delta ≤ 2 * 3600
  · rw [if_pos h, if_pos h]
    cases get_metar (env.metarFetch (st.getD "")) <;> rfl
  · rw [if_neg h, if_neg h]
    rfl

lemma cascadeStep1_source (st : Option String) (delta : ℤ) (env : Env) :
    (cascadeStep1 st delta env).source =
      if (pyTruthy st = true ∧ delta ≤ 2 * 3600) ∧
          (get_metar (env.metarFetch (st.getD ""))).isSome = true
      then Source.metar else Source.unavailable := by
  unfold cascadeStep1
  by_cases h : pyTruthy st = true ∧ delta ≤ 2 * 3600
  · rw [if_pos h]
    cases hm : get_metar (env.metarFetch (st.getD "")) with
    | none =>
      rw [if_neg (by
        intro hab
        exact Bool.false_ne_true hab.2)]
      rfl
    | some m =>
      rw [if_pos ⟨h, rfl⟩]
  · rw [if_neg h]
    rw [if_neg (by
      intro hab
      exact h hab.1)]
    rfl

lemma cascadeStep2_attempts (st : Option String) (delta : ℤ) (env : Env) :
    (cascadeStep2 st delta env).attempts =
      (cascadeStep1 st delta env).attempts ++
        (if (cascadeStep1 st delta env).source = Source.unavailable ∧
            pyTruthy st = true ∧ delta ≤ 30 * 3600
         then [Tier.t2] else []) := by
  unfold cascadeStep2
  by_cases h : (cascadeStep1 st delta env).source = Source.unavailable ∧
      pyTruthy st = true ∧ delta ≤ 30 * 3600
  · rw [if_pos h, if_pos h]
    cases get_taf (env.tafFetch (st.getD "")) <;> rfl
  · rw [if_neg h, if_neg h]
    exact (List.append_nil _).symm

lemma cascadeStep2_source (st : Option String) (delta : ℤ) (env : Env) :
    (cascadeStep2 st delta env).source =
      if ((cascadeStep1 st delta env).source = Source.unavailable ∧
            pyTruthy st = true ∧ delta ≤ 30 * 3600) ∧
          (get_taf (env.tafFetch (st.getD ""))).isSome = true
      then Source.taf else (cascadeStep1 st delta env).source := by
  unfold cascadeStep2
  by_cases h : (cascadeStep1 st delta env).source = Source.unavailable ∧
      pyTruthy st = true ∧ delta ≤ 30 * 3600
  · rw [if_pos h]
    cases ht : get_taf (env.tafFetch (st.getD "")) with
    | none =>
      rw [if_neg (by
        intro hab
        exact Bool.false_ne_true hab.2)]
    | some t =>
      rw [if_pos ⟨h, rfl⟩]
  · rw [if_neg h]
    rw [if_neg (by
      intro hab
      exact h hab.1)]

lemma cascadeStep3_attempts (st : Option String) (nws : Option NwsData)
    (delta sel : ℤ) (env : Env) :
    (cascadeStep3 st nws delta sel env).attempts =
      (cascadeStep2 st delta env).attempts ++
        (if (cascadeStep2 st delta env).source = Source.unavailable ∧
            nwsAttemptable nws = true
         then [Tier.t3] else []) := by
  unfold cascadeStep3
  by_cases h : (cascadeStep2 st delta env).source = Source.unavailable ∧
      nwsAttemptable nws = true
  · rw [if_pos h, if_pos h]
    cases env.forecastFetch (nwsUrl nws) <;> rfl
  · rw [if_neg h, if_neg h]
    exact (List.append_nil _).symm

lemma cascadeStep3_source (st : Option String) (nws : Option NwsData)
    (delta sel : ℤ) (env : Env) :
    (cascadeStep3 st nws delta sel env).source =
      if ((cascadeStep2 st delta env).source = Source.unavailable ∧
            nwsAttemptable nws = true) ∧
          env.forecastFetch (nwsUrl nws) ≠ []
      then Source.forecast else (cascadeStep2 st delta env).source := by
  unfold cascadeStep3
  by_cases h : (cascadeStep2 st delta env).source = Source.unavailable ∧
      nwsAttemptable nws = true
  · rw [if_pos h]
    cases hf : env.forecastFetch (nwsUrl nws) <;> simp [hf, h]
  · rw [if_neg h]
    rw [if_neg (by
      intro hab
      exact h hab.1)]

lemma cascadeStep1_fail (st : Option String) (delta : ℤ) (env : Env)
    (h : ¬ (pyTruthy st = true ∧ delta ≤ 2 * 3600) ∨
        get_metar (env.metarFetch (st.getD "")) = none) :
    cascadeStep1 st delta env =
      { cascadeInit with attempts :=
          (if pyTruthy st = true ∧ delta ≤ 2 * 3600 then [Tier.t1] else []) } := by
  unfold cascadeStep1
  by_cases hc : pyTruthy st = true ∧ delta ≤ 2 * 3600
  · rw [if_pos hc, if_pos hc]
    rcases h with h | h
    · exact absurd hc h
    · rw [h]
  · rw [if_neg hc, if_neg hc]
    rfl

lemma cascadeStep2_fail (st : Option String) (delta : ℤ) (env : Env)
    (h1 : ¬ (pyTruthy st = true ∧ delta ≤ 2 * 3600) ∨
        get_metar (env.metarFetch (st.getD "")) = none)
    (h2 : ¬ (pyTruthy st = true ∧ delta ≤ 30 * 3600) ∨
        get_taf (env.tafFetch (st.getD "")) = none) :
    cascadeStep2 st delta env =
      { cascadeInit with attempts :=
          (if pyTruthy st = true ∧ delta ≤ 2 * 3600 then [Tier.t1] else []) ++
          (if pyTruthy st = true ∧ delta ≤ 30 * 3600 then [Tier.t2] else []) } := by
  unfold cascadeStep2
  rw [cascadeStep1_fail st delta env h1]
  by_cases hc : pyTruthy st = true ∧ delta ≤ 30 * 3600
  · rw [if_pos ⟨rfl, hc.1, hc.2⟩, if_pos hc]
    rcases h2 with h2 | h2
    · exact absurd hc h2
    · rw [h2]
  · rw [if_neg (fun hab => hc ⟨hab.2.1, hab.2.2⟩), if_neg hc, List.append_nil]

lemma cascade_of_all_fail (st : Option String) (nws : Option NwsData)
    (delta sel : ℤ) (env : Env)
    (h1 : ¬ (pyTruthy st = true ∧ delta ≤ 2 * 3600) ∨
        get_metar (env.metarFetch (st.getD "")) = none)
    (h2 : ¬ (pyTruthy st = true ∧ delta ≤ 30 * 3600) ∨
        get_taf (env.tafFetch (st.getD "")) = none)
    (h3 : nwsAttemptable nws = false ∨ env.forecastFetch (nwsUrl nws) = []) :
    cascade st nws delta sel env =
      { cascadeInit with attempts :=
          ((if pyTruthy st = true ∧ delta ≤ 2 * 3600 then [Tier.t1] else []) ++
           (if pyTruthy st = true ∧ delta ≤ 30 * 3600 then [Tier.t2] else [])) ++
          (if nwsAttemptable nws = true then [Tier.t3] else []) } := by
  unfold cascade cascadeStep3
  rw [cascadeStep2_fail st delta env h1 h2]
  by_cases hc : nwsAttemptable nws = true
  · rw [if_pos ⟨rfl, hc⟩, if_pos hc]
    rcases h3 with h3 | h3
    · rw [hc] at h3
      exact absurd h3 (by decide)
    · rw [h3]
  · rw [if_neg (fun hab => hc hab.2), if_neg hc, List.append_nil]

lemma cascade_of_metar_success (st : Option String) (nws : Option NwsData)
    (delta sel : ℤ) (env : Env) (m : Obs)
    (h1 : pyTruthy st = true ∧ delta ≤ 2 * 3600)
    (hm : get_metar (env.metarFetch (st.getD "")) = some m) :
    cascade st nws delta sel env =
      { source := Source.metar, wind_mph := m.wind_mph, visibility := m.visibility
        cloud_base := m.cloud_base, condition := m.condition
        attempts := [Tier.t1] } := by
  have e1 : cascadeStep1 st delta env =
      { source := Source.metar, wind_mph := m.wind_mph, visibility := m.visibility
        cloud_base := m.cloud_base, condition := m.condition, attempts := [Tier.t1] } := by
    unfold cascadeStep1
    rw [if_pos h1, hm]
  unfold cascade cascadeStep3 cascadeStep2
  rw [e1]
  rw [if_neg (by
    intro hab
    exact Source.noConfusion hab.1)]
  rw [if_neg (by
    intro hab
    exact Source.noConfusion hab.1)]

lemma index_attempts (env : Env) (lat lon : ℚ) (st : Option String) (n : Naive) :
    (index env lat lon st n).attempts =
      (cascade st (env.nwsGrid lat lon) (chicagoToUtc n - env.now) (chicagoToUtc n) env).attempts :=
  rfl

lemma index_source (env : Env) (lat lon : ℚ) (st : Option String) (n : Naive) :
    (index env lat lon st n).source =
      (cascade st (env.nwsGrid lat lon) (chicagoToUtc n - env.now) (chicagoToUtc n) env).source :=
  rfl

lemma cascade_attempts (st : Option String) (nws : Option NwsData)
    (delta sel : ℤ) (env : Env) :
    (cascade st nws delta sel env).attempts =
      (if pyTruthy st = true ∧ delta ≤ 2 * 3600 then [Tier.t1] else []) ++
        ((if (cascadeStep1 st delta env).source = Source.unavailable ∧
              pyTruthy st = true ∧ delta ≤ 30 * 3600
          then [Tier.t2] else []) ++
         (if (cascadeStep2 st delta env).source = Source.unavailable ∧
              nwsAttemptable nws = true
          then [Tier.t3] else [])) := by
  unfold cascade
  rw [cascadeStep3_attempts, cascadeStep2_attempts, cascadeStep1_attempts,
    List.append_assoc]

lemma cascade_mem_t1 (st : Option String) (nws : Option NwsData)
    (delta sel : ℤ) (env : Env) :
    Tier.t1 ∈ (cascade st nws delta sel env).attempts ↔
      pyTruthy st = true ∧ delta ≤ 2 * 3600 := by
  rw [cascade_attempts]
  by_cases h1 : pyTruthy st = true ∧ delta ≤ 2 * 3600 <;>
    by_cases h2 : (cascadeStep1 st delta env).source = Source.unavailable ∧
      pyTruthy st = true ∧ delta ≤ 30 * 3600 <;>
    by_cases h3 : (cascadeStep2 st delta env).source = Source.unavailable ∧
      nwsAttemptable nws = true <;>
    simp [h1, h2, h3]

lemma cascade_mem_t2 (st : Option String) (nws : Option NwsData)
    (delta sel : ℤ) (env : Env) :
    Tier.t2 ∈ (cascade st nws delta sel env).attempts ↔
      (cascadeStep1 st delta env).source = Source.unavailable ∧
        pyTruthy st = true ∧ delta ≤ 30 * 3600 := by
  rw [cascade_attempts]
  by_cases h1 : pyTruthy st = true ∧ delta ≤ 2 * 3600 <;>
    by_cases h2 : (cascadeStep1 st delta env).source = Source.unavailable ∧
      pyTruthy st = true ∧ delta ≤ 30 * 3600 <;>
    by_cases h3 : (cascadeStep2 st delta env).source = Source.unavailable ∧
      nwsAttemptable nws = true <;>
    simp [h1, h2, h3]

lemma cascade_mem_t3 (st : Option String) (nws : Option NwsData)
    (delta sel : ℤ) (env : Env) :
    Tier.t3 ∈ (cascade st nws delta sel env).attempts ↔
      (cascadeStep2 st delta env).source = Source.unavailable ∧
        nwsAttemptable nws = true := by
  rw [cascade_attempts]
  by_cases h1 : pyTruthy st = true ∧ delta ≤ 2 * 3600 <;>
    by_cases h2 : (cascadeStep1 st delta env).source = Source.unavailable ∧
      pyTruthy st = true ∧ delta ≤ 30 * 3600 <;>
    by_cases h3 : (cascadeStep2 st delta env).source = Source.unavailable ∧
      nwsAttemptable nws = true <;>
    simp [h1, h2, h3]

lemma cascade_attempts_sublist (st : Option String) (nws : Option NwsData)
    (delta sel : ℤ) (env : Env) :
    List.Sublist (cascade st nws delta sel env).attempts [Tier.t1, Tier.t2, Tier.t3] := by
  rw [cascade_attempts]
  have key : ∀ p q r : Bool,
      List.Sublist ((if p = true then [Tier.t1] else []) ++
        ((if q = true then [Tier.t2] else []) ++ (if r = true then [Tier.t3] else [])))
        [Tier.t1, Tier.t2, Tier.t3] := by decide
  have h := key (decide (pyTruthy st = true ∧ delta ≤ 2 * 3600))
    (decide ((cascadeStep1 st delta env).source = Source.unavailable ∧
      pyTruthy st = true ∧ delta ≤ 30 * 3600))
    (decide ((cascadeStep2 st delta env).source = Source.unavailable ∧
      nwsAttemptable nws = true))
  simpa only [decide_eq_true_eq] using h

/-! ### Evaluation-layer lemmas -/

lemma evaluate_failed_reasons (c : CascadeOut) (sun : Option (ℤ × ℤ)) (sel : ℤ) :
    (evaluate c sun sel).failed_reasons =
      (daylightBlock sun sel).1 ++
        weatherReasons c.wind_mph c.visibility c.cloud_base c.condition :=
  rfl

lemma evaluate_go_iff (c : CascadeOut) (sun : Option (ℤ × ℤ)) (sel : ℤ) :
    (evaluate c sun sel).go_nogo = Decision.go ↔
      (evaluate c sun sel).failed_reasons = [] := by
  show (if (daylightBlock sun sel).1 ++
      weatherReasons c.wind_mph c.visibility c.cloud_base c.condition = []
    then Decision.go else Decision.noGo) = Decision.go ↔ _
  by_cases h : (daylightBlock sun sel).1 ++
      weatherReasons c.wind_mph c.visibility c.cloud_base c.condition = []
  · rw [if_pos h]
    simpa [evaluate_failed_reasons] using h
  · rw [if_neg h]
    simp only [evaluate_failed_reasons]
    constructor
    · intro hcontr
      exact Decision.noConfusion hcontr
    · intro hh
      exact absurd hh h

lemma daylightBlock_shape (sun : Option (ℤ × ℤ)) (sel : ℤ) :
    (daylightBlock sun sel).1 = [] ∨
    (∃ m, (daylightBlock sun sel).1 = [Reason.beforeSunrise m]) ∨
    (∃ m, (daylightBlock sun sel).1 = [Reason.afterSunset m]) := by
  unfold daylightBlock
  rcases sun with _ | ⟨sr, ss⟩
  · exact Or.inl rfl
  · dsimp only
    by_cases h1 : sel < sr
    · rw [if_pos h1]
      exact Or.inr (Or.inl ⟨_, rfl⟩)
    · rw [if_neg h1]
      by_cases h2 : ss < sel
      · rw [if_pos h2]
        exact Or.inr (Or.inr ⟨_, rfl⟩)
      · rw [if_neg h2]
        exact Or.inl rfl

lemma daylightBlock_countP (sun : Option (ℤ × ℤ)) (sel : ℤ) :
    ((daylightBlock sun sel).1).countP Reason.isDaylight ≤ 1 ∧
    ((daylightBlock sun sel).1).countP Reason.isWind = 0 ∧
    ((daylightBlock sun sel).1).countP Reason.isVis = 0 ∧
    ((daylightBlock sun sel).1).countP Reason.isCloud = 0 ∧
    ((daylightBlock sun sel).1).countP Reason.isAdverse = 0 := by
  rcases daylightBlock_shape sun sel with h | ⟨m, h⟩ | ⟨m, h⟩ <;>
    rw [h] <;>
    simp [Reason.isDaylight, Reason.isWind, Reason.isVis, Reason.isCloud,
      Reason.isAdverse, List.countP_cons, List.countP_nil]

lemma weatherReasons_countP (w v : ℚ) (cl : ℤ) (cond : String) :
    (weatherReasons w v cl cond).countP Reason.isDaylight = 0 ∧
    (weatherReasons w v cl cond).countP Reason.isWind ≤ 1 ∧
    (weatherReasons w v cl cond).countP Reason.isVis ≤ 1 ∧
    (weatherReasons w v cl cond).countP Reason.isCloud ≤ 1 ∧
    (weatherReasons w v cl cond).countP Reason.isAdverse ≤ 1 := by
  unfold weatherReasons
  split_ifs <;>
    simp [Reason.isDaylight, Reason.isWind, Reason.isVis, Reason.isCloud,
      Reason.isAdverse, List.countP_append, List.countP_cons, List.countP_nil]

lemma weatherReasons_mem_wind (w v : ℚ) (cl : ℤ) (cond : String) :
    Reason.windHigh w ∈ weatherReasons w v cl cond ↔ MAX_WIND_MPH < w := by
  unfold weatherReasons
  split_ifs with h1 h2 h3 h4 <;> simp_all

lemma weatherReasons_mem_vis (w v : ℚ) (cl : ℤ) (cond : String) :
    Reason.visLow v ∈ weatherReasons w v cl cond ↔ v < MIN_VISIBILITY_SM := by
  unfold weatherReasons
  split_ifs with h1 h2 h3 h4 <;> simp_all

lemma weatherReasons_mem_cloud (w v : ℚ) (cl : ℤ) (cond : String) :
    Reason.cloudLow cl ∈ weatherReasons w v cl cond ↔ cl < MIN_CLOUD_BASE_FT := by
  unfold weatherReasons
  split_ifs with h1 h2 h3 h4 <;> simp_all

lemma weatherReasons_mem_adverse (w v : ℚ) (cl : ℤ) (cond : String) :
    Reason.adverseCond cond ∈ weatherReasons w v cl cond ↔
      hasBadCondition cond = true := by
  unfold weatherReasons
  split_ifs with h1 h2 h3 h4 <;> simp_all

lemma weatherReasons_all_pass (w v : ℚ) (cl : ℤ) (cond : String)
    (hw : ¬ MAX_WIND_MPH < w) (hv : ¬ v < MIN_VISIBILITY_SM)
    (hc : ¬ cl < MIN_CLOUD_BASE_FT) (hb : ¬ hasBadCondition cond = true) :
    weatherReasons w v cl cond = [] := by
  unfold weatherReasons
  rw [if_neg hw, if_neg hv, if_neg hc, if_neg hb]
  rfl

lemma evaluate_wind_pass (c : CascadeOut) (sun : Option (ℤ × ℤ)) (sel : ℤ) :
    (evaluate c sun sel).wind_pass = decide (c.wind_mph ≤ MAX_WIND_MPH) :=
  rfl

lemma evaluate_visibility_pass (c : CascadeOut) (sun : Option (ℤ × ℤ)) (sel : ℤ) :
    (evaluate c sun sel).visibility_pass = decide (MIN_VISIBILITY_SM ≤ c.visibility) :=
  rfl

lemma evaluate_cloud_pass (c : CascadeOut) (sun : Option (ℤ × ℤ)) (sel : ℤ) :
    (evaluate c sun sel).cloud_pass = decide (MIN_CLOUD_BASE_FT ≤ c.cloud_base) :=
  rfl

lemma evaluate_condition_pass (c : CascadeOut) (sun : Option (ℤ × ℤ)) (sel : ℤ) :
    (evaluate c sun sel).condition_pass = ! hasBadCondition c.condition :=
  rfl

lemma daylightBlock_all_daylight (sun : Option (ℤ × ℤ)) (sel : ℤ) :
    ∀ x ∈ (daylightBlock sun sel).1, Reason.isDaylight x = true := by
  rcases daylightBlock_shape sun sel with h | ⟨m, h⟩ | ⟨m, h⟩ <;> rw [h] <;>
    simp [Reason.isDaylight]

/-! ### Concrete environments used by the closed instances -/

/-- An environment in which every external call fails. The `now` value
makes the flight time 2025-06-15 12:00 CDT have `delta = 0`. -/
def envAllFail : Env :=
  { now := 1750006800
    metarFetch := fun _ => none
    tafFetch := fun _ => none
    nwsGrid := fun _ _ => none
    forecastFetch := fun _ => []
    sunLookup := fun _ _ _ => none }

/-- Like `envAllFail` but with a working daylight service whose window
contains the 2025-06-15 12:00 CDT flight time (`1750006800`). -/
def envSun : Env :=
  { envAllFail with sunLookup := fun _ _ _ => some (1750000000, 1750010000) }

/-! ### Claim theorems -/

/-- C1: The cascade attempts the tiers strictly in order 1→2→3, gated by
`delta = flightTime − now`: tier 1 only when `delta ≤ 2 h`, tier 2 only
when `delta ≤ 30 h` and tier 1 was ineligible or failed, tier 3 only when
tiers 1–2 were ineligible or failed; it stops at the first success (a
tier-1 success leaves tiers 2–3 uninvoked, a tier-1 failure leads to a
tier-2 attempt), and each tier is attempted at most once per request
(the attempt trace is a sublist of `[t1, t2, t3]`). -/
theorem cascade_tier_order (env : Env) (lat lon : ℚ) (st : Option String) (n : Naive) :
    List.Sublist (index env lat lon st n).attempts [Tier.t1, Tier.t2, Tier.t3] ∧
    (Tier.t1 ∈ (index env lat lon st n).attempts →
      chicagoToUtc n - env.now ≤ 2 * 3600) ∧
    (Tier.t2 ∈ (index env lat lon st n).attempts →
      chicagoToUtc n - env.now ≤ 30 * 3600 ∧
        (Tier.t1 ∉ (index env lat lon st n).attempts ∨
          get_metar (env.metarFetch (st.getD "")) = none)) ∧
    (Tier.t3 ∈ (index env lat lon st n).attempts →
      (Tier.t1 ∉ (index env lat lon st n).attempts ∨
        get_metar (env.metarFetch (st.getD "")) = none) ∧
      (Tier.t2 ∉ (index env lat lon st n).attempts ∨
        get_taf (env.tafFetch (st.getD "")) = none)) ∧
    (∀ m, Tier.t1 ∈ (index env lat lon st n).attempts →
      get_metar (env.metarFetch (st.getD "")) = some m →
      (index env lat lon st n).attempts = [Tier.t1] ∧
        (index env lat lon st n).source = Source.metar) ∧
    (Tier.t1 ∈ (index env lat lon st n).attempts →
      get_metar (env.metarFetch (st.getD "")) = none →
      Tier.t2 ∈ (index env lat lon st n).attempts) := by
  have hA := index_attempts env lat lon st n
  have hS := index_source env lat lon st n
  refine ⟨?_, ?_, ?_, ?_, ?_, ?_⟩
  · rw [hA]
    exact cascade_attempts_sublist _ _ _ _ _
  · intro h
    rw [hA, cascade_mem_t1] at h
    exact h.2
  · intro h
    rw [hA, cascade_mem_t2] at h
    obtain ⟨hs1, hp, hd⟩ := h
    refine ⟨hd, ?_⟩
    by_cases hm : get_metar (env.metarFetch (st.getD "")) = none
    · exact Or.inr hm
    · left
      intro ht1
      rw [hA, cascade_mem_t1] at ht1
      have hsome : (get_metar (env.metarFetch (st.getD ""))).isSome = true :=
        Option.isSome_iff_ne_none.mpr hm
      have hsrc := cascadeStep1_source st (chicagoToUtc n - env.now) env
      rw [if_pos ⟨ht1, hsome⟩] at hsrc
      rw [hsrc] at hs1
      exact Source.noConfusion hs1
  · intro h
    rw [hA, cascade_mem_t3] at h
    obtain ⟨hs2, hn⟩ := h
    have hstep2 := cascadeStep2_source st (chicagoToUtc n - env.now) env
    constructor
    · by_cases hc : ((cascadeStep1 st (chicagoToUtc n - env.now) env).source =
          Source.unavailable ∧ pyTruthy st = true ∧
          chicagoToUtc n - env.now ≤ 30 * 3600) ∧
          (get_taf (env.tafFetch (st.getD ""))).isSome = true
      · rw [if_pos hc] at hstep2
        rw [hstep2] at hs2
        exact Source.noConfusion hs2
      · rw [if_neg hc] at hstep2
        rw [hstep2] at hs2
        by_cases hm : get_metar (env.metarFetch (st.getD "")) = none
        · exact Or.inr hm
        · left
          intro ht1
          rw [hA, cascade_mem_t1] at ht1
          have hsome : (get_metar (env.metarFetch (st.getD ""))).isSome = true :=
            Option.isSome_iff_ne_none.mpr hm
          have hsrc := cascadeStep1_source st (chicagoToUtc n - env.now) env
          rw [if_pos ⟨ht1, hsome⟩] at hsrc
          rw [hsrc] at hs2
          exact Source.noConfusion hs2
    · by_cases ht : get_taf (env.tafFetch (st.getD "")) = none
      · exact Or.inr ht
      · left
        intro ht2
        rw [hA, cascade_mem_t2] at ht2
        have hsome : (get_taf (env.tafFetch (st.getD ""))).isSome = true :=
          Option.isSome_iff_ne_none.mpr ht
        rw [if_pos ⟨ht2, hsome⟩] at hstep2
        rw [hstep2] at hs2
        exact Source.noConfusion hs2
  · intro m h1 hm
    rw [hA, cascade_mem_t1] at h1
    have hc := cascade_of_metar_success st (env.nwsGrid lat lon)
      (chicagoToUtc n - env.now) (chicagoToUtc n) env m h1 hm
    constructor
    · rw [hA, hc]
    · rw [hS, hc]
  · intro h1 hm
    rw [hA, cascade_mem_t1] at h1
    rw [hA, cascade_mem_t2]
    refine ⟨?_, h1.1, le_trans h1.2 (by norm_num)⟩
    have hsrc := cascadeStep1_source st (chicagoToUtc n - env.now) env
    rw [hm] at hsrc
    rw [if_neg (fun hab => Bool.false_ne_true hab.2)] at hsrc
    exact hsrc

/-- Closed instance of C1: with a real station, `delta = 0` and a failing
METAR fetch, tier 1 is attempted, the 2-hour gate holds, and tier 2 is
attempted after the tier-1 failure. -/
theorem cascade_tier_order_witness :
    Tier.t1 ∈ (index envAllFail 36 (-97) (some "KSWO") ⟨2025, 6, 15, 12, 0⟩).attempts ∧
    chicagoToUtc ⟨2025, 6, 15, 12, 0⟩ - envAllFail.now ≤ 2 * 3600 ∧
    Tier.t2 ∈ (index envAllFail 36 (-97) (some "KSWO") ⟨2025, 6, 15, 12, 0⟩).attempts := by
  have h := cascade_tier_order envAllFail 36 (-97) (some "KSWO") ⟨2025, 6, 15, 12, 0⟩
  have hm : Tier.t1 ∈ (index envAllFail 36 (-97) (some "KSWO") ⟨2025, 6, 15, 12, 0⟩).attempts := by
    decide
  exact ⟨hm, h.2.1 hm, h.2.2.2.2.2 hm rfl⟩

/-- C3: For every normalized observation and daylight classification the
decision is `GO` iff the failure-reason list is empty, and each of the
five criteria (daylight, wind, visibility, ceiling, condition) contributes
at most one reason to the list. -/
theorem evaluator_go_iff_no_reasons (c : CascadeOut) (sun : Option (ℤ × ℤ)) (sel : ℤ) :
    ((evaluate c sun sel).go_nogo = Decision.go ↔
      (evaluate c sun sel).failed_reasons = []) ∧
    (evaluate c sun sel).failed_reasons.countP Reason.isDaylight ≤ 1 ∧
    (evaluate c sun sel).failed_reasons.countP Reason.isWind ≤ 1 ∧
    (evaluate c sun sel).failed_reasons.countP Reason.isVis ≤ 1 ∧
    (evaluate c sun sel).failed_reasons.countP Reason.isCloud ≤ 1 ∧
    (evaluate c sun sel).failed_reasons.countP Reason.isAdverse ≤ 1 := by
  obtain ⟨d1, d2, d3, d4, d5⟩ := daylightBlock_countP sun sel
  obtain ⟨w1, w2, w3, w4, w5⟩ :=
    weatherReasons_countP c.wind_mph c.visibility c.cloud_base c.condition
  refine ⟨evaluate_go_iff c sun sel, ?_, ?_, ?_, ?_, ?_⟩ <;>
    rw [evaluate_failed_reasons, List.countP_append] <;> omega

/-- C9: Each per-criterion pass flag is `false` exactly when the
corresponding failure reason is in the list; consequently a No-Go with
all four weather flags `true` carries only daylight reasons (and at least
one). -/
theorem flags_iff_reasons (c : CascadeOut) (sun : Option (ℤ × ℤ)) (sel : ℤ) :
    ((evaluate c sun sel).wind_pass = false ↔
      Reason.windHigh c.wind_mph ∈ (evaluate c sun sel).failed_reasons) ∧
    ((evaluate c sun sel).visibility_pass = false ↔
      Reason.visLow c.visibility ∈ (evaluate c sun sel).failed_reasons) ∧
    ((evaluate c sun sel).cloud_pass = false ↔
      Reason.cloudLow c.cloud_base ∈ (evaluate c sun sel).failed_reasons) ∧
    ((evaluate c sun sel).condition_pass = false ↔
      Reason.adverseCond c.condition ∈ (evaluate c sun sel).failed_reasons) ∧
    ((evaluate c sun sel).go_nogo = Decision.noGo →
      (evaluate c sun sel).wind_pass = true →
      (evaluate c sun sel).visibility_pass = true →
      (evaluate c sun sel).cloud_pass = true →
      (evaluate c sun sel).condition_pass = true →
      (evaluate c sun sel).failed_reasons ≠ [] ∧
        ∀ x ∈ (evaluate c sun sel).failed_reasons, Reason.isDaylight x = true) := by
  have hday := daylightBlock_all_daylight sun sel
  refine ⟨?_, ?_, ?_, ?_, ?_⟩
  · rw [evaluate_wind_pass, evaluate_failed_reasons]
    constructor
    · intro h
      have hlt : MAX_WIND_MPH < c.wind_mph :=
        not_le.mp (of_decide_eq_false h)
      exact List.mem_append_right _
        ((weatherReasons_mem_wind c.wind_mph c.visibility c.cloud_base c.condition).mpr hlt)
    · intro h
      rcases List.mem_append.mp h with h | h
      · exact absurd (hday _ h) (by simp [Reason.isDaylight])
      · exact decide_eq_false (not_le.mpr
          ((weatherReasons_mem_wind c.wind_mph c.visibility c.cloud_base c.condition).mp h))
  · rw [evaluate_visibility_pass, evaluate_failed_reasons]
    constructor
    · intro h
      have hlt : c.visibility < MIN_VISIBILITY_SM :=
        not_le.mp (of_decide_eq_false h)
      exact List.mem_append_right _
        ((weatherReasons_mem_vis c.wind_mph c.visibility c.cloud_base c.condition).mpr hlt)
    · intro h
      rcases List.mem_append.mp h with h | h
      · exact absurd (hday _ h) (by simp [Reason.isDaylight])
      · exact decide_eq_false (not_le.mpr
          ((weatherReasons_mem_vis c.wind_mph c.visibility c.cloud_base c.condition).mp h))
  · rw [evaluate_cloud_pass, evaluate_failed_reasons]
    constructor
    · intro h
      have hlt : c.cloud_base < MIN_CLOUD_BASE_FT :=
        not_le.mp (of_decide_eq_false h)
      exact List.mem_append_right _
        ((weatherReasons_mem_cloud c.wind_mph c.visibility c.cloud_base c.condition).mpr hlt)
    · intro h
      rcases List.mem_append.mp h with h | h
      · exact absurd (hday _ h) (by simp [Reason.isDaylight])
      · exact decide_eq_false (not_le.mpr
          ((weatherReasons_mem_cloud c.wind_mph c.visibility c.cloud_base c.condition).mp h))
  · rw [evaluate_condition_pass, evaluate_failed_reasons]
    constructor
    · intro h
      have hb : hasBadCondition c.condition = true := by
        cases hbc : hasBadCondition c.condition
        · rw [hbc] at h
          exact absurd h (by simp)
        · rfl
      exact List.mem_append_right _
        ((weatherReasons_mem_adverse c.wind_mph c.visibility c.cloud_base c.condition).mpr hb)
    · intro h
      rcases List.mem_append.mp h with h | h
      · exact absurd (hday _ h) (by simp [Reason.isDaylight])
      · have hb := (weatherReasons_mem_adverse c.wind_mph c.visibility
          c.cloud_base c.condition).mp h
        rw [hb]
        rfl
  · intro hng hw hv hc hb
    rw [evaluate_wind_pass] at hw
    rw [evaluate_visibility_pass] at hv
    rw [evaluate_cloud_pass] at hc
    rw [evaluate_condition_pass] at hb
    have hbad : hasBadCondition c.condition = false := by
      cases hbc : hasBadCondition c.condition
      · rfl
      · rw [hbc] at hb
        exact absurd hb (by simp)
    have hwr : weatherReasons c.wind_mph c.visibility c.cloud_base c.condition = [] :=
      weatherReasons_all_pass _ _ _ _
        (not_lt.mpr (of_decide_eq_true hw))
        (not_lt.mpr (of_decide_eq_true hv))
        (not_lt.mpr (of_decide_eq_true hc))
        (by rw [hbad]; exact Bool.false_ne_true)
    constructor
    · intro hempty
      have := (evaluate_go_iff c sun sel).mpr hempty
      rw [this] at hng
      exact Decision.noConfusion hng
    · intro x hx
      rw [evaluate_failed_reasons, hwr, List.append_nil] at hx
      exact hday x hx

/-- Closed instance of C9: an after-sunset evaluation with all four
weather flags true is a No-Go whose reason list is non-empty. -/
theorem flags_iff_reasons_witness :
    (evaluate ⟨Source.metar, 0, 10, 10000, "Clear", []⟩
      (some (100, 200)) 300).failed_reasons ≠ [] := by
  have key := (flags_iff_reasons ⟨Source.metar, 0, 10, 10000, "Clear", []⟩
    (some (100, 200)) 300).2.2.2.2
  refine (key ?_ ?_ ?_ ?_ ?_).1
  · have hd : (daylightBlock (some ((100 : ℤ), (200 : ℤ))) 300).1 =
        [Reason.afterSunset 1] := by decide
    show (if (daylightBlock (some (100, 200)) 300).1 ++
        weatherReasons 0 10 10000 "Clear" = []
      then Decision.go else Decision.noGo) = Decision.noGo
    rw [hd]
    simp
  · show decide ((0 : ℚ) ≤ MAX_WIND_MPH) = true
    rw [decide_eq_true_eq]
    norm_num [MAX_WIND_MPH]
  · show decide (MIN_VISIBILITY_SM ≤ (10 : ℚ)) = true
    rw [decide_eq_true_eq]
    norm_num [MIN_VISIBILITY_SM]
  · show decide (MIN_CLOUD_BASE_FT ≤ (10000 : ℤ)) = true
    decide
  · show (! hasBadCondition "Clear") = true
    decide

/-- C2: If every eligible tier fails, the source is the `NONE` sentinel
(`unavailable`), the observation carries the conservative defaults
(wind 0.0 mph, visibility 0.0 sm, unlimited ceiling as 10000 ft,
condition "Unknown"), and the Go/No-Go decision is still computed from
those defaults rather than the request failing. -/
theorem all_sources_unavailable (env : Env) (lat lon : ℚ) (st : Option String) (n : Naive)
    (h1 : ¬ (pyTruthy st = true ∧ chicagoToUtc n - env.now ≤ 2 * 3600) ∨
        get_metar (env.metarFetch (st.getD "")) = none)
    (h2 : ¬ (pyTruthy st = true ∧ chicagoToUtc n - env.now ≤ 30 * 3600) ∨
        get_taf (env.tafFetch (st.getD "")) = none)
    (h3 : nwsAttemptable (env.nwsGrid lat lon) = false ∨
        env.forecastFetch (nwsUrl (env.nwsGrid lat lon)) = []) :
    (index env lat lon st n).source = Source.unavailable ∧
    (index env lat lon st n).wind_mph = 0.0 ∧
    (index env lat lon st n).visibility = 0.0 ∧
    (index env lat lon st n).cloud_base = 10000 ∧
    (index env lat lon st n).condition = "Unknown" ∧
    (index env lat lon st n).failed_reasons =
      (daylightBlock (env.sunLookup lat lon (n.year, n.month, n.day))
          (chicagoToUtc n)).1 ++
        weatherReasons 0.0 0.0 10000 "Unknown" ∧
    ((index env lat lon st n).go_nogo = Decision.go ↔
      (index env lat lon st n).failed_reasons = []) := by
  have e0 : index env lat lon st n =
      evaluate (cascade st (env.nwsGrid lat lon) (chicagoToUtc n - env.now)
          (chicagoToUtc n) env)
        (env.sunLookup lat lon (n.year, n.month, n.day)) (chicagoToUtc n) := rfl
  have hc := cascade_of_all_fail st (env.nwsGrid lat lon)
    (chicagoToUtc n - env.now) (chicagoToUtc n) env h1 h2 h3
  rw [e0, hc]
  exact ⟨rfl, rfl, rfl, rfl, rfl, rfl, evaluate_go_iff _ _ _⟩

/-- Closed instance of C2: with every network call failing, the result's
source is the sentinel, the defaults are reported, and the decision is
still the reason-list evaluation. -/
theorem all_sources_unavailable_witness :
    (index envAllFail 36 (-97) (some "KSWO") ⟨2025, 6, 15, 12, 0⟩).source =
      Source.unavailable ∧
    (index envAllFail 36 (-97) (some "KSWO") ⟨2025, 6, 15, 12, 0⟩).condition =
      "Unknown" ∧
    ((index envAllFail 36 (-97) (some "KSWO") ⟨2025, 6, 15, 12, 0⟩).go_nogo =
        Decision.go ↔
      (index envAllFail 36 (-97) (some "KSWO") ⟨2025, 6, 15, 12, 0⟩).failed_reasons = []) := by
  have h := all_sources_unavailable envAllFail 36 (-97) (some "KSWO")
    ⟨2025, 6, 15, 12, 0⟩ (Or.inr rfl) (Or.inr rfl) (Or.inl rfl)
  exact ⟨h.1, h.2.2.2.2.1, h.2.2.2.2.2.2⟩

/-- C7: When the daylight service fails, the result's sunrise/sunset are
the "N/A" markers, no daylight reason is appended, the decision is
computed from the remaining criteria, and the caller can distinguish
"checked and within daylight" (sunrise reported, remaining time set)
from "unchecked". -/
theorem daylight_failure_excluded (env : Env) (lat lon : ℚ) (st : Option String) (n : Naive) :
    (env.sunLookup lat lon (n.year, n.month, n.day) = none →
      (index env lat lon st n).sunrise = none ∧
      (index env lat lon st n).sunset = none ∧
      (index env lat lon st n).flight_time_remaining = none ∧
      (∀ x ∈ (index env lat lon st n).failed_reasons, Reason.isDaylight x = false) ∧
      (index env lat lon st n).failed_reasons =
        weatherReasons (index env lat lon st n).wind_mph
          (index env lat lon st n).visibility
          (index env lat lon st n).cloud_base
          (index env lat lon st n).condition ∧
      ((index env lat lon st n).go_nogo = Decision.go ↔
        (index env lat lon st n).failed_reasons = [])) ∧
    (∀ sr ss, env.sunLookup lat lon (n.year, n.month, n.day) = some (sr, ss) →
      ¬ chicagoToUtc n < sr → ¬ ss < chicagoToUtc n →
      (index env lat lon st n).sunrise = some sr ∧
      (index env lat lon st n).sunset = some ss ∧
      ((index env lat lon st n).flight_time_remaining).isSome = true) := by
  have e0 : index env lat lon st n =
      evaluate (cascade st (env.nwsGrid lat lon) (chicagoToUtc n - env.now)
          (chicagoToUtc n) env)
        (env.sunLookup lat lon (n.year, n.month, n.day)) (chicagoToUtc n) := rfl
  constructor
  · intro hs
    rw [e0, hs]
    refine ⟨rfl, rfl, rfl, ?_, rfl, evaluate_go_iff _ _ _⟩
    intro x hx
    rw [evaluate_failed_reasons] at hx
    have hx2 : x ∈ weatherReasons
        (cascade st (env.nwsGrid lat lon) (chicagoToUtc n - env.now)
          (chicagoToUtc n) env).wind_mph
        (cascade st (env.nwsGrid lat lon) (chicagoToUtc n - env.now)
          (chicagoToUtc n) env).visibility
        (cascade st (env.nwsGrid lat lon) (chicagoToUtc n - env.now)
          (chicagoToUtc n) env).cloud_base
        (cascade st (env.nwsGrid lat lon) (chicagoToUtc n - env.now)
          (chicagoToUtc n) env).condition := hx
    have h0 := (weatherReasons_countP
      (cascade st (env.nwsGrid lat lon) (chicagoToUtc n - env.now)
        (chicagoToUtc n) env).wind_mph
      (cascade st (env.nwsGrid lat lon) (chicagoToUtc n - env.now)
        (chicagoToUtc n) env).visibility
      (cascade st (env.nwsGrid lat lon) (chicagoToUtc n - env.now)
        (chicagoToUtc n) env).cloud_base
      (cascade st (env.nwsGrid lat lon) (chicagoToUtc n - env.now)
        (chicagoToUtc n) env).condition).1
    rw [List.countP_eq_zero] at h0
    have hnx := h0 x hx2
    cases hxd : Reason.isDaylight x
    · rfl
    · exact absurd hxd hnx
  · intro sr ss hs hge hle
    rw [e0, hs]
    refine ⟨rfl, rfl, ?_⟩
    show ((daylightBlock (some (sr, ss)) (chicagoToUtc n)).2).isSome = true
    unfold daylightBlock
    dsimp only
    rw [if_neg hge, if_neg hle]
    rfl

/-- Closed instance of C7: a failed daylight lookup yields the "N/A"
sunrise, while a successful lookup around the flight time yields the
sunrise and a remaining-time value. -/
theorem daylight_failure_excluded_witness :
    (index envAllFail 36 (-97) none ⟨2025, 6, 15, 12, 0⟩).sunrise = none ∧
    (index envSun 36 (-97) none ⟨2025, 6, 15, 12, 0⟩).sunrise = some 1750000000 ∧
    ((index envSun 36 (-97) none ⟨2025, 6, 15, 12, 0⟩).flight_time_remaining).isSome =
      true := by
  have hA := (daylight_failure_excluded envAllFail 36 (-97) none
    ⟨2025, 6, 15, 12, 0⟩).1 rfl
  have hB := (daylight_failure_excluded envSun 36 (-97) none
    ⟨2025, 6, 15, 12, 0⟩).2 1750000000 1750010000 rfl (by decide) (by decide)
  exact ⟨hA.1, hB.1, hB.2.2⟩

/-- Counterexample to C5 as stated: in `get_metar` an absent
`visibility_statute_mi` element yields visibility 10.0, not the claimed
conservative 0.0 default. -/
theorem metar_visibility_default_counterexample :
    (get_metar (some ⟨some "5", none, [], some "VFR"⟩)).map Obs.visibility =
      some 10.0 ∧
    (get_metar (some ⟨some "5", none, [], some "VFR"⟩)).map Obs.visibility ≠
      some 0.0 := by
  constructor
  · rfl
  · intro hcontr
    have h1 : some (10.0 : ℚ) = some (0.0 : ℚ) := hcontr
    have h2 := Option.some.inj h1
    norm_num at h2

/-- C5 (amended): the current-observation adapter drops every `'+'` from
the visibility text, strips it, and parses it as a decimal in statute
miles; an absent field yields the 10.0 default (not 0.0). -/
theorem metar_visibility_parsing (s : String) (p : FloatParts) :
    (s ≠ "" →
      floatPartsOf (pyStrip (s.data.filter (fun c => c ≠ '+'))) = some p →
      extractVis (some s) = ratOfParts p) ∧
    extractVis none = 10.0 ∧
    extractVis (some "6+") = 6.0 := by
  have core : ∀ t : String, t ≠ "" →
      ∀ q : FloatParts, floatPartsOf (pyStrip (t.data.filter (fun c => c ≠ '+'))) = some q →
      extractVis (some t) = ratOfParts q := by
    intro t ht q hq
    unfold extractVis
    dsimp only
    rw [if_pos ht]
    unfold parseFloatList
    rw [hq]
    rfl
  refine ⟨fun h hp => core s h p hp, rfl, ?_⟩
  have h6 := core "6+" (by decide) ⟨false, 6, 0, 0⟩ (by decide)
  rw [h6]
  unfold ratOfParts
  norm_num

/-- Closed instance of the amended C5: `"10+"` parses to 10 statute
miles after the `'+'` is dropped. -/
theorem metar_visibility_parsing_witness :
    ("10+" : String) ≠ "" ∧
    floatPartsOf (pyStrip ("10+".data.filter (fun c => c ≠ '+'))) =
      some ⟨false, 10, 0, 0⟩ ∧
    extractVis (some "10+") = ratOfParts ⟨false, 10, 0, 0⟩ :=
  ⟨by decide, by decide,
    (metar_visibility_parsing "10+" ⟨false, 10, 0, 0⟩).1 (by decide) (by decide)⟩

/-- Counterexample to C4 as stated: a missing visibility field defaults
to 10.0 (not the claimed 0.0), and a missing flight-category field makes
the whole `get_metar` fetch fail instead of defaulting the condition. -/
theorem adapter_defaults_counterexample :
    (get_metar (some ⟨none, none, [], some "VFR"⟩)).map Obs.visibility =
      some 10.0 ∧
    (get_metar (some ⟨none, none, [], some "VFR"⟩)).map Obs.visibility ≠
      some 0.0 ∧
    get_metar (some ⟨some "10", some "5", [], none⟩) = none := by
  refine ⟨rfl, ?_, rfl⟩
  intro hcontr
  have h1 : some (10.0 : ℚ) = some (0.0 : ℚ) := hcontr
  have h2 := Option.some.inj h1
  norm_num at h2

/-- C4 (amended): no adapter raises; `get_metar` returns the Failure
signal exactly when the flight category is missing or empty, while a
malformed or missing wind falls back to 0.0, visibility to 10.0 and
ceiling to the unlimited sentinel without aborting the fetch; `get_taf`
fails only when no forecast period exists and otherwise defaults every
field (condition to `"VFR"`). -/
theorem adapters_fail_or_default (m : MetarXml) (tf : TafForecast) (s : String) :
    (get_metar (some m) = none ↔ extractCategory m.flight_category = "UNKN") ∧
    (∀ o, get_metar (some m) = some o →
      o.wind_mph = extractWind m.wind_speed_kt ∧
      o.visibility = extractVis m.visibility_statute_mi ∧
      o.cloud_base = extractCloud m.sky_condition) ∧
    get_metar none = none ∧
    extractWind none = 0.0 ∧
    (parseFloat s = none → extractWind (some s) = 0.0) ∧
    extractVis none = 10.0 ∧
    extractCloud [] = 10000 ∧
    get_taf none = none ∧
    get_taf (some ⟨none⟩) = none ∧
    get_taf (some ⟨some tf⟩) =
      some ⟨extractWind tf.wind_speed_kt, extractVis tf.visibility_statute_mi,
        extractCloud tf.sky_condition, extractWx tf.wx_string⟩ := by
  refine ⟨?_, ?_, rfl, rfl, ?_, rfl, rfl, rfl, rfl, rfl⟩
  · unfold get_metar
    dsimp only
    by_cases h : extractCategory m.flight_category ≠ "UNKN"
    · rw [if_pos h]
      constructor
      · intro hc
        exact Option.noConfusion hc
      · intro hc
        exact absurd hc h
    · rw [if_neg h]
      constructor
      · intro _
        exact not_not.mp h
      · intro _
        rfl
  · unfold get_metar
    dsimp only
    by_cases h : extractCategory m.flight_category ≠ "UNKN"
    · rw [if_pos h]
      intro o ho
      have ho2 := Option.some.inj ho
      rw [← ho2]
      exact ⟨rfl, rfl, rfl⟩
    · rw [if_neg h]
      intro o ho
      exact Option.noConfusion ho
  · intro hp
    unfold extractWind
    dsimp only
    by_cases hs : s ≠ ""
    · rw [if_pos hs, hp]
    · rw [if_neg hs]

/-- Closed instance of the amended C4: an unparseable wind text gives the
0.0 default without failing the fetch. -/
theorem adapters_fail_or_default_witness :
    parseFloat "abc" = none ∧ extractWind (some "abc") = 0.0 :=
  ⟨by decide,
    (adapters_fail_or_default ⟨none, none, [], none⟩ ⟨none, none, [], none⟩
      "abc").2.2.2.2.1 (by decide)⟩

/-- C8: the adapters' knots→mph conversion turns a 10-kt wind into
11.5 mph (`round(kt * 1.15078, 1)`), and the spec-modelled meters→feet
conversion turns a 150 m cloud base into ≈492 ft. -/
theorem unit_conversion_samples :
    extractWind (some "10") = 11.5 ∧
    ratFloor (metersToFeet 150) = 492 ∧
    |metersToFeet 150 - 492| < 1 / 2 := by
  refine ⟨?_, ?_, ?_⟩
  · have hp : floatPartsOf "10".data = some ⟨false, 10, 0, 0⟩ := by decide
    have hpf : parseFloat "10" = some 10 := by
      unfold parseFloat parseFloatList
      rw [hp]
      simp [ratOfParts]
    unfold extractWind
    dsimp only
    rw [if_pos (by decide : ("10" : String) ≠ ""), hpf]
    norm_num [roundTo1, ratFloor]
  · norm_num [metersToFeet, ratFloor]
  · have hnn : (0 : ℚ) ≤ metersToFeet 150 - 492 := by
      norm_num [metersToFeet]
    rw [abs_of_nonneg hnn]
    norm_num [metersToFeet]

/-- The generic selection invariant of the brute-force nearest scan: the
kept element is a member of the list and minimizes the key. -/
lemma foldlMin_spec {β : Type} {α : Type} [LinearOrder α] (d : β → α)
    (x : β) (xs : List β) :
    (xs.foldl (fun best s => if d s < d best then s else best) x ∈ x :: xs) ∧
    ∀ t ∈ x :: xs,
      d (xs.foldl (fun best s => if d s < d best then s else best) x) ≤ d t := by
  induction xs generalizing x with
  | nil =>
    refine ⟨List.mem_cons_self x [], ?_⟩
    intro t ht
    rw [List.mem_singleton.mp ht]
    exact le_refl _
  | cons y ys ih =>
    have hfold : (y :: ys).foldl (fun best s => if d s < d best then s else best) x =
        ys.foldl (fun best s => if d s < d best then s else best)
          (if d y < d x then y else x) := rfl
    rw [hfold]
    obtain ⟨ihmem, ihmin⟩ := ih (if d y < d x then y else x)
    constructor
    · rcases List.mem_cons.mp ihmem with h | h
      · rw [h]
        by_cases hxy : d y < d x
        · rw [if_pos hxy]
          exact List.mem_cons_of_mem _ (List.mem_cons_self _ _)
        · rw [if_neg hxy]
          exact List.mem_cons_self _ _
      · exact List.mem_cons_of_mem _ (List.mem_cons_of_mem _ h)
    · intro t ht
      have hhead := ihmin _ (List.mem_cons_self _ _)
      rcases List.mem_cons.mp ht with h | h2
      · rw [h]
        by_cases hxy : d y < d x
        · rw [if_pos hxy] at hhead ⊢
          exact le_trans hhead (le_of_lt hxy)
        · rw [if_neg hxy] at hhead ⊢
          exact hhead
      rcases List.mem_cons.mp h2 with h | h3
      · rw [h]
        by_cases hxy : d y < d x
        · rw [if_pos hxy] at hhead ⊢
          exact hhead
        · rw [if_neg hxy] at hhead ⊢
          exact le_trans hhead (not_lt.mp hxy)
      · exact ihmin _ (List.mem_cons_of_mem _ h3)

/-- C6: for every query point and non-empty reference table the locator
returns a table entry of provably smallest haversine distance (R = 6371
km); an empty table yields "not found" instead of raising. -/
theorem station_locator_nearest (qlat qlon : ℝ) (table : List Station) :
    (table ≠ [] → ∃ s ∈ table,
      nearestBy (fun st => haversineKm qlat qlon st.lat st.lon) table = some s ∧
      ∀ t ∈ table,
        haversineKm qlat qlon s.lat s.lon ≤ haversineKm qlat qlon t.lat t.lon) ∧
    (table = [] →
      nearestBy (fun st => haversineKm qlat qlon st.lat st.lon) table = none) := by
  constructor
  · intro hne
    cases table with
    | nil => exact absurd rfl hne
    | cons x xs =>
      obtain ⟨hmem, hmin⟩ :=
        foldlMin_spec (fun st => haversineKm qlat qlon st.lat st.lon) x xs
      exact ⟨_, hmem, rfl, hmin⟩
  · intro h
    rw [h]
    rfl

/-- Closed instance of C6 at a one-entry table around Stillwater. -/
theorem station_locator_nearest_witness :
    ([(⟨"KSWO", 36, -97⟩ : Station)] ≠ []) ∧
    ∃ s ∈ [(⟨"KSWO", 36, -97⟩ : Station)],
      nearestBy (fun st => haversineKm 36.2 (-96.8) st.lat st.lon)
        [(⟨"KSWO", 36, -97⟩ : Station)] = some s ∧
      ∀ t ∈ [(⟨"KSWO", 36, -97⟩ : Station)],
        haversineKm 36.2 (-96.8) s.lat s.lon ≤ haversineKm 36.2 (-96.8) t.lat t.lon := by
  have hne : [(⟨"KSWO", 36, -97⟩ : Station)] ≠ [] := by simp
  exact ⟨hne, (station_locator_nearest 36.2 (-96.8) [⟨"KSWO", 36, -97⟩]).1 hne⟩

/-- C10: the flight time is interpreted in `America/Chicago` and
converted to UTC by `chicagoToUtc` for every queried coordinate: the
tier-1 gate compares `chicagoToUtc n − now` with the 2-hour window (a
condition free of the coordinates), and the daylight comparison tests
`chicagoToUtc n` against the fetched sunrise. -/
theorem central_time_interpretation (env : Env) (lat lon : ℚ) (st : Option String) (n : Naive) :
    (Tier.t1 ∈ (index env lat lon st n).attempts ↔
      pyTruthy st = true ∧ chicagoToUtc n - env.now ≤ 2 * 3600) ∧
    (∀ sr ss, env.sunLookup lat lon (n.year, n.month, n.day) = some (sr, ss) →
      (Reason.beforeSunrise ((sr - chicagoToUtc n) / 60) ∈
          (index env lat lon st n).failed_reasons ↔
        chicagoToUtc n < sr)) := by
  have e0 : index env lat lon st n =
      evaluate (cascade st (env.nwsGrid lat lon) (chicagoToUtc n - env.now)
          (chicagoToUtc n) env)
        (env.sunLookup lat lon (n.year, n.month, n.day)) (chicagoToUtc n) := rfl
  constructor
  · rw [index_attempts]
    exact cascade_mem_t1 st (env.nwsGrid lat lon) (chicagoToUtc n - env.now)
      (chicagoToUtc n) env
  · intro sr ss hs
    rw [e0, hs, evaluate_failed_reasons]
    constructor
    · intro hmem
      by_cases hlt : chicagoToUtc n < sr
      · exact hlt
      · exfalso
        rcases List.mem_append.mp hmem with hd | hw
        · revert hd
          unfold daylightBlock
          dsimp only
          rw [if_neg hlt]
          by_cases h2 : ss < chicagoToUtc n
          · rw [if_pos h2]
            intro hd
            have := List.mem_singleton.mp hd
            exact Reason.noConfusion this
          · rw [if_neg h2]
            intro hd
            exact List.not_mem_nil _ hd
        · have h0 := (weatherReasons_countP
            (cascade st (env.nwsGrid lat lon) (chicagoToUtc n - env.now)
              (chicagoToUtc n) env).wind_mph
            (cascade st (env.nwsGrid lat lon) (chicagoToUtc n - env.now)
              (chicagoToUtc n) env).visibility
            (cascade st (env.nwsGrid lat lon) (chicagoToUtc n - env.now)
              (chicagoToUtc n) env).cloud_base
            (cascade st (env.nwsGrid lat lon) (chicagoToUtc n - env.now)
              (chicagoToUtc n) env).condition).1
          rw [List.countP_eq_zero] at h0
          exact h0 _ hw rfl
    · intro hlt
      apply List.mem_append_left
      unfold daylightBlock
      dsimp only
      rw [if_pos hlt]
      exact List.mem_singleton_self _

/-- Closed instance of C10: with a live daylight lookup, the
before-sunrise reason appears exactly when the Central-interpreted
flight instant precedes the reported sunrise. -/
theorem central_time_interpretation_witness :
    envSun.sunLookup 36 (-97) ((2025 : ℤ), (6 : ℕ), (15 : ℕ)) =
      some (1750000000, 1750010000) ∧
    (Reason.beforeSunrise ((1750000000 - chicagoToUtc ⟨2025, 6, 15, 12, 0⟩) / 60) ∈
        (index envSun 36 (-97) none ⟨2025, 6, 15, 12, 0⟩).failed_reasons ↔
      chicagoToUtc ⟨2025, 6, 15, 12, 0⟩ < 1750000000) :=
  ⟨rfl, (central_time_interpretation envSun 36 (-97) none
    ⟨2025, 6, 15, 12, 0⟩).2 1750000000 1750010000 rfl⟩

end UasApp
